import Mathlib

/-!
Shallow embedding of the telemetry reporter (`log_wandb` in
`src/llama_recipes/utils/wandb_utils.py`) and the resume bookkeeping of
`main` in `src/llama_recipes/finetuning.py` of the moe-recipes repository.

Python floats are modelled as values of a linear ordered field `K`
(instantiated as `ℚ` for executable witnesses and as `ℝ` for statements
about square roots and exponentials); Python ints are `ℕ`; `//` on ints is
`Nat` floor division, `/` on floats is field division.  `math.exp` and the
tensor-level elementwise `sqrt` are abstracted as function parameters
`expFn` and `sqrtFn` (instantiated with `Real.exp` / `Real.sqrt` over `ℝ`).
`torch.norm(x).item() ** 2` is modelled exactly, as the sum of squares of
the tensor entries, and `torch.norm(x, p=1)` as the sum of absolute
values; tensors are lists of scalars.  The wandb record is the ordered
association list of the keys inserted by the source, in insertion order.
-/

/-- The per-parameter local shard state that the reporting loop reads via
the deepspeed debugging API: `safe_get_local_fp32_param` (`hp_param`),
`safe_get_local_grad` (`hp_grad`) and `safe_get_local_optimizer_state`
for `exp_avg` / `exp_avg_sq`. -/
structure LocalState (K : Type) where
  hp_param : List K
  hp_grad : List K
  exp_avg : List K
  exp_avg_sq : List K

/-- The hyperparameter surface of `model.config` that `log_wandb` reads.
`num_experts_per_tok` is `Option`al: the source guards its read with
`hasattr(model.config, "num_experts_per_tok")`. -/
structure ModelConfig where
  hidden_act : String
  hidden_size : ℕ
  num_hidden_layers : ℕ
  num_attention_heads : ℕ
  num_key_value_heads : ℕ
  intermediate_size : ℕ
  vocab_size : ℕ
  num_experts_per_tok : Option ℕ

/-- `torch.norm(x).item() ** 2` in exact arithmetic: the sum of squares of
the entries. -/
def sumSq {K : Type} [LinearOrderedField K] (l : List K) : K :=
  (l.map fun x => x * x).sum

/-- `torch.norm(x, p=1).item()` in exact arithmetic: the sum of absolute
values of the entries. -/
def sumAbs {K : Type} [LinearOrderedField K] (l : List K) : K :=
  (l.map fun x => |x|).sum

/-- `tensor.max().item()` on a nonempty tensor (0 on the empty list). -/
def listMax {K : Type} [LinearOrderedField K] : List K → K
  | [] => 0
  | x :: xs => xs.foldl max x

/-- `tensor.min().item()` on a nonempty tensor (0 on the empty list). -/
def listMin {K : Type} [LinearOrderedField K] : List K → K
  | [] => 0
  | x :: xs => xs.foldl min x

/-- `optimizer_states_1[0]`: per-shard accumulation of
`(torch.norm(local_exp_avg_sq).item()) ** 2` starting from `0.0`. -/
def variance_l2_sq {K : Type} [LinearOrderedField K]
    (params : List (LocalState K)) : K :=
  params.foldl (fun acc p => acc + sumSq p.exp_avg_sq) 0

/-- `optimizer_states_1[1]`: per-shard accumulation of
`(torch.norm(local_exp_avg_sq.sqrt()).item()) ** 2` starting from `0.0`. -/
def variance_sqrt_l2_sq {K : Type} [LinearOrderedField K] (sqrtFn : K → K)
    (params : List (LocalState K)) : K :=
  params.foldl (fun acc p => acc + sumSq (p.exp_avg_sq.map sqrtFn)) 0

/-- `optimizer_states_1[2]`: per-shard accumulation of
`(torch.norm(local_exp_avg).item()) ** 2` starting from `0.0`. -/
def momentum_l2_sq {K : Type} [LinearOrderedField K]
    (params : List (LocalState K)) : K :=
  params.foldl (fun acc p => acc + sumSq p.exp_avg) 0

/-- `optimizer_states_1[3]`: per-shard accumulation of
`(torch.norm(local_hp_param).item()) ** 2` starting from `0.0`. -/
def weight_l2_sq {K : Type} [LinearOrderedField K]
    (params : List (LocalState K)) : K :=
  params.foldl (fun acc p => acc + sumSq p.hp_param) 0

/-- `optimizer_states_1[4]`: accumulated `torch.norm(local_exp_avg_sq, p=1)`. -/
def variance_l1 {K : Type} [LinearOrderedField K]
    (params : List (LocalState K)) : K :=
  params.foldl (fun acc p => acc + sumAbs p.exp_avg_sq) 0

/-- `optimizer_states_1[5]`: accumulated `torch.norm(local_exp_avg_sq.sqrt(), p=1)`. -/
def variance_sqrt_l1 {K : Type} [LinearOrderedField K] (sqrtFn : K → K)
    (params : List (LocalState K)) : K :=
  params.foldl (fun acc p => acc + sumAbs (p.exp_avg_sq.map sqrtFn)) 0

/-- `optimizer_states_1[6]`: accumulated `torch.norm(local_exp_avg, p=1)`. -/
def momentum_l1 {K : Type} [LinearOrderedField K]
    (params : List (LocalState K)) : K :=
  params.foldl (fun acc p => acc + sumAbs p.exp_avg) 0

/-- `optimizer_states_1[7]`: accumulated `torch.norm(local_hp_param, p=1)`. -/
def weight_l1 {K : Type} [LinearOrderedField K]
    (params : List (LocalState K)) : K :=
  params.foldl (fun acc p => acc + sumAbs p.hp_param) 0

/-- `optimizer_states_2[0]`: running
`max(acc, abs(local_exp_avg_sq.max()), abs(local_exp_avg_sq.min()))`. -/
def variance_abs_max {K : Type} [LinearOrderedField K]
    (params : List (LocalState K)) : K :=
  params.foldl
    (fun acc p => max (max acc |listMax p.exp_avg_sq|) |listMin p.exp_avg_sq|) 0

/-- `optimizer_states_2[1]`: running
`max(acc, local_exp_avg_sq.sqrt().abs_().max())`. -/
def variance_sqrt_abs_max {K : Type} [LinearOrderedField K] (sqrtFn : K → K)
    (params : List (LocalState K)) : K :=
  params.foldl
    (fun acc p => max acc (listMax (p.exp_avg_sq.map fun v => |sqrtFn v|))) 0

/-- `optimizer_states_2[2]`: running
`max(acc, abs(local_exp_avg.max()), abs(local_exp_avg.min()))`. -/
def momentum_abs_max {K : Type} [LinearOrderedField K]
    (params : List (LocalState K)) : K :=
  params.foldl
    (fun acc p => max (max acc |listMax p.exp_avg|) |listMin p.exp_avg|) 0

/-- `optimizer_states_2[3]`: running
`max(acc, abs(local_hp_param.max()), abs(local_hp_param.min()))`. -/
def weight_abs_max {K : Type} [LinearOrderedField K]
    (params : List (LocalState K)) : K :=
  params.foldl
    (fun acc p => max (max acc |listMax p.hp_param|) |listMin p.hp_param|) 0

/-- The wandb record built by `log_wandb` in
`src/llama_recipes/utils/wandb_utils.py`, in dict insertion order.
Arguments mirror the Python signature: the torch `model` argument is split
into its `config` hyperparameters (`cfg`) and `model.named_parameters()`
(`named_parameters`, names dropped as unused); the `optimizer` argument is
split into `optimizer.param_groups[0]["lr"]` (`lr`) and the truthiness of
`optimizer.state` (`optimizer_state_nonempty`);
`time.perf_counter() - iteration_start_time` is passed directly as
`iteration_elapsed_time`. -/
def log_wandb (K : Type) [LinearOrderedField K]
    (sqrtFn expFn : K → K)
    (real_batch_size real_seq_len : ℕ)
    (cfg : ModelConfig)
    (named_parameters : List (LocalState K))
    (accumulation_loss load_balancing_loss : K)
    (lr : K)
    (optimizer_state_nonempty : Bool)
    (iteration gradient_accumulation_steps world_size : ℕ)
    (iteration_elapsed_time : K) : List (String × K) :=
  let batch_size : ℕ := real_batch_size
  let sequence_length : ℕ := real_seq_len
  let tokens_per_sec : K :=
    (batch_size : K) * (sequence_length : K) * (gradient_accumulation_steps : K)
      / iteration_elapsed_time * (world_size : K)
  let num_layers : ℕ := cfg.num_hidden_layers
  let hidden_size : ℕ := cfg.hidden_size
  let vocab_size : ℕ := cfg.vocab_size
  let intermediate_size : ℕ := cfg.intermediate_size
  let num_experts_routed_to : ℕ := cfg.num_experts_per_tok.getD 1
  let activation_function_factor : K :=
    if cfg.hidden_act = "silu" then 1 + 0.5 else 1
  let num_attention_heads : ℕ := cfg.num_attention_heads
  let flops_batch_size : ℕ := batch_size * gradient_accumulation_steps
  let kv_channels : ℕ := hidden_size / num_attention_heads
  let query_projection_size : ℕ := kv_channels * num_attention_heads
  let query_projection_to_hidden_size_ratio : K :=
    (query_projection_size : K) / (hidden_size : K)
  let flops_per_iteration : K :=
    12 * (flops_batch_size : K) * (sequence_length : K)
      * ((hidden_size : K) ^ 2) * (num_layers : K)
      * (((1 + ((cfg.num_key_value_heads : K) / (num_attention_heads : K))
            + ((sequence_length : K) / (hidden_size : K)))
          * query_projection_to_hidden_size_ratio)
        + (((intermediate_size : K) / (hidden_size : K))
            * (num_experts_routed_to : K) * activation_function_factor)
        + ((vocab_size : K) / (2 * (num_layers : K) * (hidden_size : K))))
  let tflops : K := flops_per_iteration / (iteration_elapsed_time * (10 ^ 12 : K))
  [("training/loss", accumulation_loss),
   ("training/load_balancing_loss", load_balancing_loss),
   ("training/perplexity", expFn accumulation_loss),
   ("utils/batch_size", (batch_size : K)),
   ("utils/global_batch_size",
     ((batch_size * world_size * gradient_accumulation_steps : ℕ) : K)),
   ("utils/seq_len", (sequence_length : K)),
   ("utils/gradient_accumulation_steps", (gradient_accumulation_steps : K)),
   ("utils/iteration", (iteration : K)),
   ("optimizer/lr", lr)]
  ++ (if optimizer_state_nonempty then
        [("optimizer/variance_l2", sqrtFn (variance_l2_sq named_parameters)),
         ("optimizer/variance_sqrt_l2",
           sqrtFn (variance_sqrt_l2_sq sqrtFn named_parameters)),
         ("optimizer/momentum_l2", sqrtFn (momentum_l2_sq named_parameters)),
         ("optimizer/weight_l2", sqrtFn (weight_l2_sq named_parameters)),
         ("optimizer/variance_l1", variance_l1 named_parameters),
         ("optimizer/variance_sqrt_l1", variance_sqrt_l1 sqrtFn named_parameters),
         ("optimizer/momentum_l1", momentum_l1 named_parameters),
         ("optimizer/weight_l1", weight_l1 named_parameters),
         ("optimizer/variance_abs_max", variance_abs_max named_parameters),
         ("optimizer/variance_sqrt_abs_max",
           variance_sqrt_abs_max sqrtFn named_parameters),
         ("optimizer/momentum_abs_max", momentum_abs_max named_parameters),
         ("optimizer/weight_abs_max", weight_abs_max named_parameters)]
        ++ (match named_parameters.getLast? with
            | some p => [("utils/grad-norm", sqrtFn (sumSq p.hp_grad))]
            | none => [])
      else [])
  ++ [("stats/1_iteration_time", iteration_elapsed_time),
      ("stats/tokens_per_sec", tokens_per_sec),
      ("stats/tokens_per_sec_per_gpu", tokens_per_sec / (world_size : K)),
      ("stats/tflops", tflops)]

/-- `args.consumed_train_samples = args.global_batch_size * args.iteration`
from `main` in `src/llama_recipes/finetuning.py`. -/
def consumed_train_samples (global_batch_size iteration : ℕ) : ℕ :=
  global_batch_size * iteration

/-- `args.consumed_valid_samples = args.global_batch_size *
(args.iteration // args.eval_interval) * args.eval_iters` from `main` in
`src/llama_recipes/finetuning.py`; `//` is Python floor division on
nonnegative ints, which is `Nat` division. -/
def consumed_valid_samples
    (global_batch_size iteration eval_interval eval_iters : ℕ) : ℕ :=
  global_batch_size * (iteration / eval_interval) * eval_iters

/-- Modelled from the spec: parsing a directory-entry name as a
(nonnegative) integer, the success condition of `int(name)` on a digit
string.  Helper for `get_latest_iteration`, whose defining file is not
among the provided sources. -/
def parseNat? (s : String) : Option ℕ :=
  if s.data ≠ [] ∧ s.data.all Char.isDigit then
    some (s.data.foldl (fun n c => 10 * n + (Char.toNat c - Char.toNat '0')) 0)
  else none

/-- Modelled from the spec: `get_latest_iteration` lives in
`llama_recipes/utils/checkpoint.py`, which is not among the provided
source files; only its caller (`src/llama_recipes/finetuning.py`) is.
Per the spec it scans the immediate subdirectories of the checkpoint
root, keeps the names that parse as integers, and returns their maximum,
or 0 when the directory is empty or absent.  The directory listing is
modelled as `Option (List String)`, `none` standing for a missing
directory. -/
def get_latest_iteration (listing : Option (List String)) : ℕ :=
  match listing with
  | none => 0
  | some names => (names.filterMap parseNat?).foldl max 0

/-! ### Helper lemmas -/

lemma foldl_add_eq_add_sum {K : Type} [LinearOrderedField K] {α : Type}
    (f : α → K) (l : List α) (a : K) :
    l.foldl (fun acc x => acc + f x) a = a + (l.map f).sum := by
  induction l generalizing a with
  | nil => simp
  | cons x xs ih => simp [List.foldl_cons, ih, add_assoc]

lemma sumSq_append {K : Type} [LinearOrderedField K] (l₁ l₂ : List K) :
    sumSq (l₁ ++ l₂) = sumSq l₁ + sumSq l₂ := by
  simp [sumSq]

lemma sumSq_flatten {K : Type} [LinearOrderedField K] (ls : List (List K)) :
    sumSq ls.flatten = (ls.map sumSq).sum := by
  induction ls with
  | nil => simp [sumSq]
  | cons l ls ih => simp [List.flatten, sumSq_append, ih]

lemma variance_l2_sq_eq {K : Type} [LinearOrderedField K]
    (params : List (LocalState K)) :
    variance_l2_sq params = sumSq ((params.map LocalState.exp_avg_sq).flatten) := by
  simp [variance_l2_sq, foldl_add_eq_add_sum, sumSq_flatten, List.map_map,
    Function.comp_def]

lemma variance_sqrt_l2_sq_eq {K : Type} [LinearOrderedField K] (sqrtFn : K → K)
    (params : List (LocalState K)) :
    variance_sqrt_l2_sq sqrtFn params
      = sumSq ((params.map fun p => p.exp_avg_sq.map sqrtFn).flatten) := by
  simp [variance_sqrt_l2_sq, foldl_add_eq_add_sum, sumSq_flatten, List.map_map,
    Function.comp_def]

lemma momentum_l2_sq_eq {K : Type} [LinearOrderedField K]
    (params : List (LocalState K)) :
    momentum_l2_sq params = sumSq ((params.map LocalState.exp_avg).flatten) := by
  simp [momentum_l2_sq, foldl_add_eq_add_sum, sumSq_flatten, List.map_map,
    Function.comp_def]

lemma weight_l2_sq_eq {K : Type} [LinearOrderedField K]
    (params : List (LocalState K)) :
    weight_l2_sq params = sumSq ((params.map LocalState.hp_param).flatten) := by
  simp [weight_l2_sq, foldl_add_eq_add_sum, sumSq_flatten, List.map_map,
    Function.comp_def]

lemma foldl_max_init_le (l : List ℕ) : ∀ a : ℕ, a ≤ l.foldl max a := by
  induction l with
  | nil => simp
  | cons x xs ih => exact fun a => le_trans (le_max_left a x) (ih (max a x))

lemma mem_le_foldl_max (l : List ℕ) : ∀ a n, n ∈ l → n ≤ l.foldl max a := by
  induction l with
  | nil => simp
  | cons x xs ih =>
    intro a n hn
    rcases List.mem_cons.mp hn with h | h
    · subst h
      exact le_trans (le_max_right a n) (foldl_max_init_le xs (max a n))
    · exact ih (max a x) n h

lemma foldl_max_mem (l : List ℕ) : ∀ a, l.foldl max a ∈ a :: l := by
  induction l with
  | nil => intro a; simp
  | cons x xs ih =>
    intro a
    rw [List.foldl_cons]
    rcases List.mem_cons.mp (ih (max a x)) with h1 | h1
    · rw [h1]
      rcases max_choice a x with hm | hm <;> rw [hm] <;> simp
    · exact List.mem_cons_of_mem _ (List.mem_cons_of_mem _ h1)

/-! ### Claim theorems -/

/-- C2: on resume, the consumed-sample counters are recomputed from the
restored iteration by pure integer arithmetic:
`consumed_train_samples = global_batch_size * iteration` and
`consumed_valid_samples = global_batch_size * (iteration // eval_interval)
* eval_iters`, with `//` truncating floor division, which undercounts
(strictly) whenever `eval_interval` does not divide `iteration`. -/
theorem consumed_samples_recompute
    (global_batch_size iteration eval_interval eval_iters : ℕ)
    (h : 0 < eval_interval) :
    consumed_train_samples global_batch_size iteration
        = global_batch_size * iteration
    ∧ consumed_valid_samples global_batch_size iteration eval_interval eval_iters
        = global_batch_size * (iteration / eval_interval) * eval_iters
    ∧ eval_interval * (iteration / eval_interval) ≤ iteration
    ∧ (¬ eval_interval ∣ iteration →
        eval_interval * (iteration / eval_interval) < iteration) := by
  refine ⟨rfl, rfl, ?_, ?_⟩
  · rw [Nat.mul_comm]
    exact Nat.div_mul_le_self iteration eval_interval
  · intro hnd
    have hmod : iteration % eval_interval ≠ 0 := fun hz =>
      hnd (Nat.dvd_of_mod_eq_zero hz)
    have hdm := Nat.div_add_mod iteration eval_interval
    omega

/-- C2 witness. -/
theorem consumed_samples_recompute_witness :
    0 < 3
    ∧ (consumed_train_samples 4 7 = 4 * 7
      ∧ consumed_valid_samples 4 7 3 2 = 4 * (7 / 3) * 2
      ∧ 3 * (7 / 3) ≤ 7
      ∧ (¬ 3 ∣ 7 → 3 * (7 / 3) < 7)) :=
  ⟨by decide, consumed_samples_recompute 4 7 3 2 (by decide)⟩

/-- C5: `get_latest_iteration` returns 0 on a missing (`none`) or empty
directory, ignores entries whose names do not parse as integers, and
returns a maximum of the integer-parsed entry names: the result bounds
every parsed entry from above and is itself either 0 or one of the parsed
entries; on the spec's example listing `{3, 7, 12, "not_a_number"}` it
returns 12. -/
theorem get_latest_iteration_spec (names : List String) (s : String) (n : ℕ) :
    get_latest_iteration none = 0
    ∧ get_latest_iteration (some []) = 0
    ∧ (parseNat? s = none →
        get_latest_iteration (some (s :: names))
          = get_latest_iteration (some names))
    ∧ (n ∈ names.filterMap parseNat? →
        n ≤ get_latest_iteration (some names))
    ∧ (get_latest_iteration (some names) = 0
        ∨ get_latest_iteration (some names) ∈ names.filterMap parseNat?)
    ∧ get_latest_iteration (some ["3", "7", "12", "not_a_number"]) = 12 := by
  refine ⟨rfl, rfl, ?_, ?_, ?_, by decide⟩
  · intro hs
    simp [get_latest_iteration, List.filterMap_cons, hs]
  · intro hn
    exact mem_le_foldl_max (names.filterMap parseNat?) 0 n hn
  · exact List.mem_cons.mp (foldl_max_mem (names.filterMap parseNat?) 0)

/-- C5 witness. -/
theorem get_latest_iteration_spec_witness :
    parseNat? "not_a_number" = none
    ∧ get_latest_iteration (some ("not_a_number" :: ["3", "7", "12"]))
        = get_latest_iteration (some ["3", "7", "12"])
    ∧ 12 ∈ (["3", "7", "12"].filterMap parseNat?)
    ∧ 12 ≤ get_latest_iteration (some ["3", "7", "12"]) :=
  ⟨by decide,
   (get_latest_iteration_spec ["3", "7", "12"] "not_a_number" 12).2.2.1
     (by decide),
   by decide,
   (get_latest_iteration_spec ["3", "7", "12"] "not_a_number" 12).2.2.2.1
     (by decide)⟩

/-- C7: the emitted `stats/tokens_per_sec` is exactly
`batch_size * sequence_length * gradient_accumulation_steps /
elapsed_wall_time * world_size`, and `stats/tokens_per_sec_per_gpu` is
exactly that value divided by `world_size`. -/
theorem throughput_formulas (K : Type) [LinearOrderedField K]
    (sqrtFn expFn : K → K) (real_batch_size real_seq_len : ℕ)
    (cfg : ModelConfig) (named_parameters : List (LocalState K))
    (accumulation_loss load_balancing_loss lr : K)
    (optimizer_state_nonempty : Bool)
    (iteration gradient_accumulation_steps world_size : ℕ)
    (iteration_elapsed_time : K) :
    List.lookup "stats/tokens_per_sec"
        (log_wandb K sqrtFn expFn real_batch_size real_seq_len cfg
          named_parameters accumulation_loss load_balancing_loss lr
          optimizer_state_nonempty iteration gradient_accumulation_steps
          world_size iteration_elapsed_time)
      = some ((real_batch_size : K) * (real_seq_len : K)
          * (gradient_accumulation_steps : K) / iteration_elapsed_time
          * (world_size : K))
    ∧ List.lookup "stats/tokens_per_sec_per_gpu"
        (log_wandb K sqrtFn expFn real_batch_size real_seq_len cfg
          named_parameters accumulation_loss load_balancing_loss lr
          optimizer_state_nonempty iteration gradient_accumulation_steps
          world_size iteration_elapsed_time)
      = some ((real_batch_size : K) * (real_seq_len : K)
          * (gradient_accumulation_steps : K) / iteration_elapsed_time
          * (world_size : K) / (world_size : K)) := by
  cases optimizer_state_nonempty <;>
    cases hp : named_parameters.getLast? <;>
      simp [log_wandb, hp, List.lookup]

/-- C9: the emitted `training/perplexity` is the exponential of the
reported accumulated loss, and at loss 2.0 the exponential is within
0.001 of 7.389. -/
theorem perplexity_exp (real_batch_size real_seq_len : ℕ)
    (cfg : ModelConfig) (named_parameters : List (LocalState ℝ))
    (accumulation_loss load_balancing_loss lr : ℝ)
    (optimizer_state_nonempty : Bool)
    (iteration gradient_accumulation_steps world_size : ℕ)
    (iteration_elapsed_time : ℝ) :
    List.lookup "training/perplexity"
        (log_wandb ℝ Real.sqrt Real.exp real_batch_size real_seq_len cfg
          named_parameters accumulation_loss load_balancing_loss lr
          optimizer_state_nonempty iteration gradient_accumulation_steps
          world_size iteration_elapsed_time)
      = some (Real.exp accumulation_loss)
    ∧ |Real.exp 2 - 7.389| < 0.001 := by
  constructor
  · cases optimizer_state_nonempty <;>
      cases hp : named_parameters.getLast? <;>
        simp [log_wandb, hp, List.lookup]
  · have h2 : Real.exp 2 = Real.exp 1 * Real.exp 1 := by
      rw [← Real.exp_add]; norm_num
    have hgt := Real.exp_one_gt_d9
    have hlt := Real.exp_one_lt_d9
    have hpos := Real.exp_pos 1
    rw [abs_lt]
    constructor <;> nlinarith

/-- C1: the emitted `stats/tflops` is exactly
`flops_per_iter / (elapsed * 1e12)` with
`flops_per_iter = 12 * B * S * H^2 * L * ((1 + KV/A + S/H) * ((H/A * A)/H)
+ (I/H) * E * F + V/(2*L*H))`, where `B = batch_size *
gradient_accumulation_steps`, `H/A` inside the query-projection ratio is
the integer floor division the source computes `kv_channels` with, and
`F = 1.5` when the activation is `"silu"` and `1.0` otherwise. -/
theorem tflops_formula (K : Type) [LinearOrderedField K]
    (sqrtFn expFn : K → K) (real_batch_size real_seq_len : ℕ)
    (cfg : ModelConfig) (named_parameters : List (LocalState K))
    (accumulation_loss load_balancing_loss lr : K)
    (optimizer_state_nonempty : Bool)
    (iteration gradient_accumulation_steps world_size : ℕ)
    (iteration_elapsed_time : K) :
    List.lookup "stats/tflops"
        (log_wandb K sqrtFn expFn real_batch_size real_seq_len cfg
          named_parameters accumulation_loss load_balancing_loss lr
          optimizer_state_nonempty iteration gradient_accumulation_steps
          world_size iteration_elapsed_time)
      = some ((12 * ((real_batch_size : K) * (gradient_accumulation_steps : K))
          * (real_seq_len : K) * (cfg.hidden_size : K) ^ 2
          * (cfg.num_hidden_layers : K)
          * ((1 + (cfg.num_key_value_heads : K) / (cfg.num_attention_heads : K)
                + (real_seq_len : K) / (cfg.hidden_size : K))
              * (((cfg.hidden_size / cfg.num_attention_heads : ℕ) : K)
                  * (cfg.num_attention_heads : K) / (cfg.hidden_size : K))
            + (cfg.intermediate_size : K) / (cfg.hidden_size : K)
                * ((cfg.num_experts_per_tok.getD 1 : ℕ) : K)
                * (if cfg.hidden_act = "silu" then (3 / 2 : K) else 1)
            + (cfg.vocab_size : K)
                / (2 * (cfg.num_hidden_layers : K) * (cfg.hidden_size : K))))
          / (iteration_elapsed_time * (10 : K) ^ 12)) := by
  by_cases hact : cfg.hidden_act = "silu" <;>
    cases optimizer_state_nonempty <;>
      cases hp : named_parameters.getLast? <;>
        simp [log_wandb, hp, hact, List.lookup] <;> ring_nf

/-- C6: when the config lacks `num_experts_per_tok`, `log_wandb` behaves
exactly as if the field were present with value 1 (the whole emitted
record coincides); when the field is present with value `e`, the emitted
`stats/tflops` uses `e` as `num_experts_routed_to` in the FLOPS formula. -/
theorem num_experts_default (K : Type) [LinearOrderedField K]
    (sqrtFn expFn : K → K) (real_batch_size real_seq_len : ℕ)
    (cfg : ModelConfig) (named_parameters : List (LocalState K))
    (accumulation_loss load_balancing_loss lr : K)
    (optimizer_state_nonempty : Bool)
    (iteration gradient_accumulation_steps world_size : ℕ)
    (iteration_elapsed_time : K) (e : ℕ) :
    log_wandb K sqrtFn expFn real_batch_size real_seq_len
        {cfg with num_experts_per_tok := none} named_parameters
        accumulation_loss load_balancing_loss lr optimizer_state_nonempty
        iteration gradient_accumulation_steps world_size
        iteration_elapsed_time
      = log_wandb K sqrtFn expFn real_batch_size real_seq_len
        {cfg with num_experts_per_tok := some 1} named_parameters
        accumulation_loss load_balancing_loss lr optimizer_state_nonempty
        iteration gradient_accumulation_steps world_size
        iteration_elapsed_time
    ∧ List.lookup "stats/tflops"
        (log_wandb K sqrtFn expFn real_batch_size real_seq_len
          {cfg with num_experts_per_tok := some e} named_parameters
          accumulation_loss load_balancing_loss lr optimizer_state_nonempty
          iteration gradient_accumulation_steps world_size
          iteration_elapsed_time)
      = some ((12 * ((real_batch_size * gradient_accumulation_steps : ℕ) : K)
          * (real_seq_len : K) * (cfg.hidden_size : K) ^ 2
          * (cfg.num_hidden_layers : K)
          * ((1 + (cfg.num_key_value_heads : K) / (cfg.num_attention_heads : K)
                + (real_seq_len : K) / (cfg.hidden_size : K))
              * (((cfg.hidden_size / cfg.num_attention_heads
                    * cfg.num_attention_heads : ℕ) : K)
                  / (cfg.hidden_size : K))
            + (cfg.intermediate_size : K) / (cfg.hidden_size : K) * (e : K)
                * (if cfg.hidden_act = "silu" then (1 + 0.5 : K) else 1)
            + (cfg.vocab_size : K)
                / (2 * (cfg.num_hidden_layers : K) * (cfg.hidden_size : K))))
          / (iteration_elapsed_time * (10 ^ 12 : K))) := by
  refine ⟨rfl, ?_⟩
  by_cases hact : cfg.hidden_act = "silu" <;>
    cases optimizer_state_nonempty <;>
      cases hp : named_parameters.getLast? <;>
        simp [log_wandb, hp, hact, List.lookup]

/-- C8: for fixed batch size, sequence length, gradient accumulation and
elapsed time, the emitted `stats/tokens_per_sec` doubles when the world
size doubles, and `stats/tokens_per_sec_per_gpu` is independent of the
world size (it equals `batch_size * seq_len * gradient_accumulation_steps
/ elapsed` for every nonzero world size). -/
theorem tokens_per_sec_linear (K : Type) [LinearOrderedField K]
    (sqrtFn expFn : K → K) (real_batch_size real_seq_len : ℕ)
    (cfg : ModelConfig) (named_parameters : List (LocalState K))
    (accumulation_loss load_balancing_loss lr : K)
    (optimizer_state_nonempty : Bool)
    (iteration gradient_accumulation_steps world_size : ℕ)
    (iteration_elapsed_time : K) :
    List.lookup "stats/tokens_per_sec"
        (log_wandb K sqrtFn expFn real_batch_size real_seq_len cfg
          named_parameters accumulation_loss load_balancing_loss lr
          optimizer_state_nonempty iteration gradient_accumulation_steps
          (2 * world_size) iteration_elapsed_time)
      = some (2 * ((real_batch_size : K) * (real_seq_len : K)
          * (gradient_accumulation_steps : K) / iteration_elapsed_time
          * (world_size : K)))
    ∧ ((world_size : K) ≠ 0 →
        List.lookup "stats/tokens_per_sec_per_gpu"
          (log_wandb K sqrtFn expFn real_batch_size real_seq_len cfg
            named_parameters accumulation_loss load_balancing_loss lr
            optimizer_state_nonempty iteration gradient_accumulation_steps
            world_size iteration_elapsed_time)
        = some ((real_batch_size : K) * (real_seq_len : K)
            * (gradient_accumulation_steps : K) / iteration_elapsed_time)) := by
  constructor
  · cases optimizer_state_nonempty <;>
      cases hp : named_parameters.getLast? <;>
        simp [log_wandb, hp, List.lookup] <;> ring_nf
  · intro hw
    cases optimizer_state_nonempty <;>
      cases hp : named_parameters.getLast? <;>
        simp [log_wandb, hp, List.lookup, mul_div_cancel_right₀ _ hw]

/-- A concrete model configuration used by closed instantiations. -/
def cfg0 : ModelConfig :=
  { hidden_act := "silu", hidden_size := 4, num_hidden_layers := 2,
    num_attention_heads := 2, num_key_value_heads := 1,
    intermediate_size := 8, vocab_size := 16, num_experts_per_tok := some 2 }

/-- C8 witness. -/
theorem tokens_per_sec_linear_witness :
    ((2 : ℕ) : ℚ) ≠ 0
    ∧ List.lookup "stats/tokens_per_sec"
        (log_wandb ℚ id id 1 2 cfg0 [] 0 0 0 false 0 1 (2 * 2) 1)
      = some (2 * (((1 : ℕ) : ℚ) * ((2 : ℕ) : ℚ) * ((1 : ℕ) : ℚ) / 1
          * ((2 : ℕ) : ℚ)))
    ∧ List.lookup "stats/tokens_per_sec_per_gpu"
        (log_wandb ℚ id id 1 2 cfg0 [] 0 0 0 false 0 1 2 1)
      = some (((1 : ℕ) : ℚ) * ((2 : ℕ) : ℚ) * ((1 : ℕ) : ℚ) / 1) :=
  ⟨by norm_num,
   (tokens_per_sec_linear ℚ id id 1 2 cfg0 [] 0 0 0 false 0 1 2 1).1,
   (tokens_per_sec_linear ℚ id id 1 2 cfg0 [] 0 0 0 false 0 1 2 1).2
     (by norm_num)⟩

/-- A shard whose `exp_avg_sq` slice is the single entry 3. -/
def shardA (K : Type) [LinearOrderedField K] : LocalState K :=
  { hp_param := [], hp_grad := [], exp_avg := [], exp_avg_sq := [3] }

/-- A shard whose `exp_avg_sq` slice is the single entry 4. -/
def shardB (K : Type) [LinearOrderedField K] : LocalState K :=
  { hp_param := [], hp_grad := [], exp_avg := [], exp_avg_sq := [4] }

/-- C3: when optimizer state is present, each reported optimizer-state L2
aggregate (variance, sqrt-variance, momentum, weight) is the true global
L2 norm of the concatenation of all locally-owned shards — the square
root, applied exactly once at the end, of the sum over shards of the
squared per-shard L2 norms — and not the sum of per-shard L2 norms: on
shards with `exp_avg_sq` slices `[3]` and `[4]` the reported value is 5
while the sum of per-shard norms is 7. -/
theorem optimizer_l2_global_norm (real_batch_size real_seq_len : ℕ)
    (cfg : ModelConfig) (named_parameters : List (LocalState ℝ))
    (accumulation_loss load_balancing_loss lr : ℝ)
    (iteration gradient_accumulation_steps world_size : ℕ)
    (iteration_elapsed_time : ℝ) :
    List.lookup "optimizer/variance_l2"
        (log_wandb ℝ Real.sqrt Real.exp real_batch_size real_seq_len cfg
          named_parameters accumulation_loss load_balancing_loss lr true
          iteration gradient_accumulation_steps world_size
          iteration_elapsed_time)
      = some (Real.sqrt
          (sumSq ((named_parameters.map LocalState.exp_avg_sq).flatten)))
    ∧ List.lookup "optimizer/variance_sqrt_l2"
        (log_wandb ℝ Real.sqrt Real.exp real_batch_size real_seq_len cfg
          named_parameters accumulation_loss load_balancing_loss lr true
          iteration gradient_accumulation_steps world_size
          iteration_elapsed_time)
      = some (Real.sqrt
          (sumSq ((named_parameters.map
            fun p => p.exp_avg_sq.map Real.sqrt).flatten)))
    ∧ List.lookup "optimizer/momentum_l2"
        (log_wandb ℝ Real.sqrt Real.exp real_batch_size real_seq_len cfg
          named_parameters accumulation_loss load_balancing_loss lr true
          iteration gradient_accumulation_steps world_size
          iteration_elapsed_time)
      = some (Real.sqrt
          (sumSq ((named_parameters.map LocalState.exp_avg).flatten)))
    ∧ List.lookup "optimizer/weight_l2"
        (log_wandb ℝ Real.sqrt Real.exp real_batch_size real_seq_len cfg
          named_parameters accumulation_loss load_balancing_loss lr true
          iteration gradient_accumulation_steps world_size
          iteration_elapsed_time)
      = some (Real.sqrt
          (sumSq ((named_parameters.map LocalState.hp_param).flatten)))
    ∧ (List.lookup "optimizer/variance_l2"
          (log_wandb ℝ Real.sqrt Real.exp 1 1 cfg0 [shardA ℝ, shardB ℝ]
            0 0 0 true 0 1 1 1)
        = some 5
      ∧ Real.sqrt (sumSq [(3 : ℝ)]) + Real.sqrt (sumSq [(4 : ℝ)]) = 7
      ∧ (5 : ℝ) ≠ 7) := by
  have h3 : Real.sqrt (sumSq [(3 : ℝ)]) = 3 := by
    rw [show sumSq [(3 : ℝ)] = 3 ^ 2 by simp [sumSq]; norm_num]
    exact Real.sqrt_sq (by norm_num)
  have h4 : Real.sqrt (sumSq [(4 : ℝ)]) = 4 := by
    rw [show sumSq [(4 : ℝ)] = 4 ^ 2 by simp [sumSq]; norm_num]
    exact Real.sqrt_sq (by norm_num)
  refine ⟨?_, ?_, ?_, ?_, ?_, ?_, by norm_num⟩
  · simp [log_wandb, List.lookup, variance_l2_sq_eq]
  · simp [log_wandb, List.lookup, variance_sqrt_l2_sq_eq]
  · simp [log_wandb, List.lookup, momentum_l2_sq_eq]
  · simp [log_wandb, List.lookup, weight_l2_sq_eq]
  · have h25 : variance_l2_sq [shardA ℝ, shardB ℝ] = 5 ^ 2 := by
      simp [variance_l2_sq, shardA, shardB, sumSq]; norm_num
    simp [log_wandb, List.lookup, h25, Real.sqrt_sq (by norm_num : (0:ℝ) ≤ 5)]
  · rw [h3, h4]; norm_num

/-- A shard whose local gradient slice is the single entry 3. -/
def gradShardA (K : Type) [LinearOrderedField K] : LocalState K :=
  { hp_param := [], hp_grad := [3], exp_avg := [], exp_avg_sq := [] }

/-- A shard whose local gradient slice is the single entry 4. -/
def gradShardB (K : Type) [LinearOrderedField K] : LocalState K :=
  { hp_param := [], hp_grad := [4], exp_avg := [], exp_avg_sq := [] }

/-- C10: when optimizer state is present and the model has at least one
parameter, the emitted `utils/grad-norm` is the L2 norm of the local
gradient of only the last parameter in iteration order, not an aggregate:
on gradient slices `[3]` and `[4]` the reported value is 4 while the
global L2 norm over all parameters would be 5. -/
theorem grad_norm_last_param (real_batch_size real_seq_len : ℕ)
    (cfg : ModelConfig) (front : List (LocalState ℝ)) (plast : LocalState ℝ)
    (accumulation_loss load_balancing_loss lr : ℝ)
    (iteration gradient_accumulation_steps world_size : ℕ)
    (iteration_elapsed_time : ℝ) :
    List.lookup "utils/grad-norm"
        (log_wandb ℝ Real.sqrt Real.exp real_batch_size real_seq_len cfg
          (front ++ [plast]) accumulation_loss load_balancing_loss lr true
          iteration gradient_accumulation_steps world_size
          iteration_elapsed_time)
      = some (Real.sqrt (sumSq plast.hp_grad))
    ∧ (List.lookup "utils/grad-norm"
          (log_wandb ℝ Real.sqrt Real.exp 1 1 cfg0
            [gradShardA ℝ, gradShardB ℝ] 0 0 0 true 0 1 1 1)
        = some 4
      ∧ Real.sqrt
          (sumSq (([gradShardA ℝ, gradShardB ℝ].map
            LocalState.hp_grad).flatten)) = 5
      ∧ (4 : ℝ) ≠ 5) := by
  refine ⟨?_, ?_, ?_, by norm_num⟩
  · simp [log_wandb, List.getLast?_concat, List.lookup]
  · have h16 : sumSq ((gradShardB ℝ).hp_grad) = 4 ^ 2 := by
      simp [gradShardB, sumSq]; norm_num
    simp [log_wandb, List.lookup, h16,
      Real.sqrt_sq (by norm_num : (0:ℝ) ≤ 4)]
  · rw [show sumSq (([gradShardA ℝ, gradShardB ℝ].map
        LocalState.hp_grad).flatten) = 5 ^ 2 by
      simp [gradShardA, gradShardB, sumSq]; norm_num]
    exact Real.sqrt_sq (by norm_num)

/-- C4 counterexample: even when the optimizer state is absent
(`optimizer.state` falsy), the emitted record still contains the key
`optimizer/lr` — a key under the `optimizer/` prefix (its first 10
characters are exactly `optimizer/`) — because the source sets it before
and outside the `if optimizer.state:` guard.  So the record does not
omit all `optimizer/*` keys. -/
theorem optimizer_lr_present_without_state :
    List.lookup "optimizer/lr"
        (log_wandb ℚ id id 1 1 cfg0 [] 0 0 (5 / 100) false 0 1 1 1)
      = some (5 / 100)
    ∧ ("optimizer/lr").data.take 10 = ("optimizer/").data := by
  constructor
  · simp [log_wandb, List.lookup]
  · decide

/-- C4 amended: when the optimizer state is absent, the reporter emits a
record that omits every optimizer-state aggregate key (the twelve
`optimizer/*` norm keys and `utils/grad-norm`), while `optimizer/lr` —
set unconditionally before the guard — and all `training/*`, `utils/*`
and `stats/*` fields are still computed and reported. -/
theorem no_optimizer_state_keys (K : Type) [LinearOrderedField K]
    (sqrtFn expFn : K → K) (real_batch_size real_seq_len : ℕ)
    (cfg : ModelConfig) (named_parameters : List (LocalState K))
    (accumulation_loss load_balancing_loss lr : K)
    (iteration gradient_accumulation_steps world_size : ℕ)
    (iteration_elapsed_time : K) :
    (∀ key ∈ ["optimizer/variance_l2", "optimizer/variance_sqrt_l2",
        "optimizer/momentum_l2", "optimizer/weight_l2",
        "optimizer/variance_l1", "optimizer/variance_sqrt_l1",
        "optimizer/momentum_l1", "optimizer/weight_l1",
        "optimizer/variance_abs_max", "optimizer/variance_sqrt_abs_max",
        "optimizer/momentum_abs_max", "optimizer/weight_abs_max",
        "utils/grad-norm"],
      List.lookup key
        (log_wandb K sqrtFn expFn real_batch_size real_seq_len cfg
          named_parameters accumulation_loss load_balancing_loss lr false
          iteration gradient_accumulation_steps world_size
          iteration_elapsed_time) = none)
    ∧ List.lookup "optimizer/lr"
        (log_wandb K sqrtFn expFn real_batch_size real_seq_len cfg
          named_parameters accumulation_loss load_balancing_loss lr false
          iteration gradient_accumulation_steps world_size
          iteration_elapsed_time) = some lr
    ∧ (∀ key ∈ ["training/loss", "training/load_balancing_loss",
        "training/perplexity", "utils/batch_size", "utils/global_batch_size",
        "utils/seq_len", "utils/gradient_accumulation_steps",
        "utils/iteration", "stats/1_iteration_time", "stats/tokens_per_sec",
        "stats/tokens_per_sec_per_gpu", "stats/tflops"],
      (List.lookup key
        (log_wandb K sqrtFn expFn real_batch_size real_seq_len cfg
          named_parameters accumulation_loss load_balancing_loss lr false
          iteration gradient_accumulation_steps world_size
          iteration_elapsed_time)).isSome = true) := by
  refine ⟨?_, ?_, ?_⟩
  · intro key hkey
    fin_cases hkey <;> simp [log_wandb, List.lookup]
  · simp [log_wandb, List.lookup]
  · intro key hkey
    fin_cases hkey <;> simp [log_wandb, List.lookup]

/-- C4 amended witness. -/
theorem no_optimizer_state_keys_witness :
    List.lookup "optimizer/variance_l2"
        (log_wandb ℚ id id 1 1 cfg0 [] 0 0 0 false 0 1 1 1) = none
    ∧ (List.lookup "stats/tflops"
        (log_wandb ℚ id id 1 1 cfg0 [] 0 0 0 false 0 1 1 1)).isSome = true :=
  ⟨(no_optimizer_state_keys ℚ id id 1 1 cfg0 [] 0 0 0 0 1 1 1).1
      "optimizer/variance_l2" (by decide),
   (no_optimizer_state_keys ℚ id id 1 1 cfg0 [] 0 0 0 0 1 1 1).2.2
      "stats/tflops" (by decide)⟩
